import Mathlib

/-!
Shallow embedding of the kybesp32 two-T-Deck test orchestrator
(`test_two_t_decks.py`) and proofs about its log analyzer, verdict engine,
device locator and run pipeline.
-/

namespace Kybesp32

/-- Python's `line.lower()` restricted to the ASCII range, as a list of
characters.  `Char.toLower` maps exactly the basic latin uppercase letters
to lowercase, matching CPython on ASCII input. -/
def pyLower (s : String) : List Char := s.data.map Char.toLower

/-- Predicate `noNL l` holds when `l` has no newline character; the regex `.` of
`re.search` never matches a newline, so gaps matched by `.*` or a bounded
quantifier must satisfy it. -/
def noNL (l : List Char) : Bool := l.all (fun c => !(c == '\n'))

/-- Substring search: `re.search` of a literal pattern `p` inside `l`. -/
def containsSub (p : String) (l : List Char) : Bool :=
  (List.range (l.length + 1)).any fun i => p.data.isPrefixOf (l.drop i)

/-- Semantics of `re.search` for a pattern of the form `a.*b` inside `l`: an occurrence
of `a`, a (possibly empty) newline-free gap, then an occurrence of `b`. -/
def matchDotStar (a b : String) (l : List Char) : Bool :=
  (List.range (l.length + 1)).any fun i =>
    a.data.isPrefixOf (l.drop i) &&
    ((List.range (l.length + 1)).any fun g =>
      noNL ((l.drop (i + a.data.length)).take g) &&
      b.data.isPrefixOf ((l.drop (i + a.data.length)).drop g))

/-- Anchored match of `a` followed by a newline-free gap of at most 20
characters (the regex quantifier bounded by 0 and 20 over `.`) and then a
match of the continuation `k` exactly after the gap. -/
def matchGap20At (a : String) (k : List Char → Bool) (l : List Char) : Bool :=
  a.data.isPrefixOf l &&
  ((List.range 21).any fun g =>
    noNL ((l.drop a.data.length).take g) && k ((l.drop a.data.length).drop g))

/-- Pattern `kyber_init` of `analyze_log_output`:
regex `Kyber.*initialized|KyberCryptoEngine.*created`. -/
def matchKyberInit (l : List Char) : Bool :=
  matchDotStar "Kyber" "initialized" l || matchDotStar "KyberCryptoEngine" "created" l

/-- Pattern `key_generation`:
regex `Kyber keypair generated|generateKeyPair.*success`. -/
def matchKeyGeneration (l : List Char) : Bool :=
  containsSub "Kyber keypair generated" l || matchDotStar "generateKeyPair" "success" l

/-- Pattern `key_exchange_start`:
regex `Initiating Kyber key exchange|KYBER_MSG_KEY_EXCHANGE_REQUEST`. -/
def matchKeyExchangeStart (l : List Char) : Bool :=
  containsSub "Initiating Kyber key exchange" l ||
    containsSub "KYBER_MSG_KEY_EXCHANGE_REQUEST" l

/-- Pattern `session_established`:
regex `Kyber session established|quantum security.*active`. -/
def matchSessionEstablished (l : List Char) : Bool :=
  containsSub "Kyber session established" l || matchDotStar "quantum security" "active" l

/-- Pattern `quantum_security`: regex `quantum`, then at most 20 characters,
then `security`, then at most 20 characters, then `active` or `enabled`. -/
def matchQuantumSecurity (l : List Char) : Bool :=
  (List.range (l.length + 1)).any fun i =>
    matchGap20At "quantum"
      (matchGap20At "security"
        (fun l3 => "active".data.isPrefixOf l3 || "enabled".data.isPrefixOf l3))
      (l.drop i)

/-- Pattern `mesh_packet`:
regex `packet.*received|packet.*sent|mesh.*message`. -/
def matchMeshPacket (l : List Char) : Bool :=
  matchDotStar "packet" "received" l || matchDotStar "packet" "sent" l ||
    matchDotStar "mesh" "message" l

/-- Pattern `error`: regex `ERROR|FAIL|error|fail`. -/
def matchError (l : List Char) : Bool :=
  containsSub "ERROR" l || containsSub "FAIL" l ||
    containsSub "error" l || containsSub "fail" l

/-- The per-device slice of the result dictionaries that
`analyze_log_output` maintains for a single device name. -/
structure DeviceStats where
  kyber_init : Bool
  key_generation : Bool
  key_exchange_attempts : Nat
  sessions_established : Nat
  quantum_security_active : Bool
  mesh_packets : Nat
  errors : Nat
deriving DecidableEq

/-- The initialisation of all seven categories for a device
(lines 162-168 of `test_two_t_decks.py`): booleans `False`, counters `0`. -/
def initStats : DeviceStats :=
  { kyber_init := false, key_generation := false, key_exchange_attempts := 0,
    sessions_established := 0, quantum_security_active := false,
    mesh_packets := 0, errors := 0 }

/-- The body of the inner loop of `analyze_log_output`: lowercase the line
(`line_lower = line.lower()`), then check each of the seven used patterns
independently, setting booleans to true and incrementing counters. -/
def analyzeLine (s : DeviceStats) (line : String) : DeviceStats :=
  let ll := pyLower line
  { kyber_init := s.kyber_init || matchKyberInit ll,
    key_generation := s.key_generation || matchKeyGeneration ll,
    key_exchange_attempts :=
      s.key_exchange_attempts + (if matchKeyExchangeStart ll then 1 else 0),
    sessions_established :=
      s.sessions_established + (if matchSessionEstablished ll then 1 else 0),
    quantum_security_active := s.quantum_security_active || matchQuantumSecurity ll,
    mesh_packets := s.mesh_packets + (if matchMeshPacket ll then 1 else 0),
    errors := s.errors + (if matchError ll then 1 else 0) }

/-- A `LogEvent` of the collector queue: `(timestamp, raw line)`. -/
abbrev LogEvent := Nat × String

/-- The inner loop of `analyze_log_output` starting from state `s`:
`for timestamp, line in logs` (the timestamp is never read). -/
def analyzeFrom (s : DeviceStats) (logs : List LogEvent) : DeviceStats :=
  logs.foldl (fun s e => analyzeLine s e.2) s

/-- The full per-device analysis: initialise the seven categories to their
defaults, then scan every log event of the device. -/
def analyzeDeviceLog (logs : List LogEvent) : DeviceStats :=
  analyzeFrom initStats logs

/-- The `results` dictionary of `analyze_log_output`: one mapping from
device name to metric per category, represented as association lists. -/
structure AnalysisResult where
  kyber_init : List (String × Bool)
  key_generation : List (String × Bool)
  key_exchange_attempts : List (String × Nat)
  sessions_established : List (String × Nat)
  quantum_security_active : List (String × Bool)
  mesh_packets : List (String × Nat)
  errors : List (String × Nat)
deriving DecidableEq

/-- Function `analyze_log_output(device_logs)`: the outer loop runs the per-device
analysis independently for each `device_name, logs` entry and records every
category value under the device's name. -/
def analyze_log_output (device_logs : List (String × List LogEvent)) : AnalysisResult :=
  { kyber_init := device_logs.map fun d => (d.1, (analyzeDeviceLog d.2).kyber_init),
    key_generation := device_logs.map fun d => (d.1, (analyzeDeviceLog d.2).key_generation),
    key_exchange_attempts :=
      device_logs.map fun d => (d.1, (analyzeDeviceLog d.2).key_exchange_attempts),
    sessions_established :=
      device_logs.map fun d => (d.1, (analyzeDeviceLog d.2).sessions_established),
    quantum_security_active :=
      device_logs.map fun d => (d.1, (analyzeDeviceLog d.2).quantum_security_active),
    mesh_packets := device_logs.map fun d => (d.1, (analyzeDeviceLog d.2).mesh_packets),
    errors := device_logs.map fun d => (d.1, (analyzeDeviceLog d.2).errors) }

/-- The `success_criteria` dictionary computed at the end of
`test_mesh_communication`. -/
structure Verdict where
  both_init : Bool
  both_keygen : Bool
  key_exchanges : Bool
  low_errors : Bool
deriving DecidableEq

/-- Dictionary `success_criteria` (lines 249-254): `both_init` and `both_keygen` are
`all(...)` over the corresponding dictionaries, `key_exchanges` is
`sum(...) > 0`, `low_errors` is `all(count < 5 ...)`. -/
def success_criteria (analysis : AnalysisResult) : Verdict :=
  { both_init := analysis.kyber_init.all fun d => d.2,
    both_keygen := analysis.key_generation.all fun d => d.2,
    key_exchanges := decide (0 < (analysis.key_exchange_attempts.map fun d => d.2).sum),
    low_errors := analysis.errors.all fun d => decide (d.2 < 5) }

/-- Line 256: `overall_success = all(success_criteria.values())`. -/
def overall_success (v : Verdict) : Bool :=
  v.both_init && v.both_keygen && v.key_exchanges && v.low_errors

/-- The analysis computed by `test_mesh_communication`, whose `device_logs`
dictionary always holds exactly the two keys `T-Deck-1` and `T-Deck-2`. -/
def meshAnalysis (log1 log2 : List LogEvent) : AnalysisResult :=
  analyze_log_output [("T-Deck-1", log1), ("T-Deck-2", log2)]

/-- The boolean returned by `test_mesh_communication` as a function of the
two collected device logs. -/
def test_mesh_communication (log1 log2 : List LogEvent) : Bool :=
  overall_success (success_criteria (meshAnalysis log1 log2))

/-- The keyword test of `find_t_deck_devices`: some keyword of
`cp210, esp32, serial, usb` is a substring of the lowercased description. -/
def matchesKeyword (description : String) : Bool :=
  ["cp210", "esp32", "serial", "usb"].any fun kw => containsSub kw (pyLower description)

/-- The `t_deck_ports` accumulator of `find_t_deck_devices`: the devices
whose description matches a keyword, in enumeration order. -/
def matchingPorts (ports : List (String × String)) : List String :=
  (ports.filter fun p => matchesKeyword p.2).map fun p => p.1

/-- Function `find_t_deck_devices` over the enumerated `(device, description)` pairs:
collect the devices whose description matches a keyword, in enumeration
order; return `[]` when fewer than two were found, else the first two. -/
def find_t_deck_devices (ports : List (String × String)) : List String :=
  let t_deck_ports := matchingPorts ports
  if t_deck_ports.length < 2 then [] else t_deck_ports.take 2

/-- Outcome of one invocation of the external flashing process:
how long it would run, its exit code, and whether launching it raises. -/
structure ProcOutcome where
  duration : Nat
  exitCode : Int
  raises : Bool
deriving DecidableEq

/-- Function `flash_firmware` as a function of the external process outcome:
`subprocess.run(..., timeout=300)` raises `TimeoutExpired` when the process
outlives 300 time-units and the handler returns `False`; any other
exception also yields `False`; otherwise success is `returncode == 0`. -/
def flash_firmware (p : ProcOutcome) : Bool :=
  if p.raises then false
  else if 300 < p.duration then false
  else p.exitCode == 0

/-- Device names are assigned by index: `T-Deck-1`, `T-Deck-2`. -/
def deviceName (i : Nat) : String := "T-Deck-" ++ toString (i + 1)

/-- The external world a run interacts with: the enumerated serial ports,
the behaviour of the flashing process per port, and the serial lines the
two monitors would collect. -/
structure RunEnv where
  ports : List (String × String)
  flash : String → ProcOutcome
  log1 : List LogEvent
  log2 : List LogEvent

/-- Observable outcome of `run_tests`. -/
structure RunResult where
  flashedPorts : List String
  flash_results : List (String × Bool)
  monitoredPorts : List String
  monitorDuration : Option Nat
  reportWritten : Bool
  success : Bool
deriving DecidableEq

/-- Function `run_tests`: discovery; early `False` (before flashing, monitoring or
report writing) when fewer than two devices were selected; otherwise flash
each selected port sequentially and record the result, monitor both ports
for the literal 90 time-units of `test_mesh_communication`, write the
report, and return `all(flash_results.values()) and mesh_result`. -/
def run_tests (env : RunEnv) : RunResult :=
  let selected := find_t_deck_devices env.ports
  if selected.length < 2 then
    { flashedPorts := [], flash_results := [], monitoredPorts := [],
      monitorDuration := none, reportWritten := false, success := false }
  else
    let flash_results := selected.enum.map fun ip =>
      (deviceName ip.1, flash_firmware (env.flash ip.2))
    let mesh_result := test_mesh_communication env.log1 env.log2
    { flashedPorts := selected, flash_results := flash_results,
      monitoredPorts := selected, monitorDuration := some 90,
      reportWritten := true,
      success := (flash_results.all fun r => r.2) && mesh_result }

/-- The parsed command-line arguments of `main`. -/
structure Args where
  verbose : Bool
  skip_flash : Bool
  test_duration : Nat
deriving DecidableEq

/-- How the run of `tester.run_tests()` inside `main` terminates. -/
inductive Termination where
  | completed
  | interrupted
  | exception
deriving DecidableEq

/-- Function `main`: parse the arguments, build the tester (only `args.verbose` is
ever passed on; `args.skip_flash` and `args.test_duration` are never read
again), call `run_tests`, and exit 0 on success and 1 otherwise, including
on `KeyboardInterrupt` and on any other exception. -/
def main_exit_code (args : Args) (env : RunEnv) (t : Termination) : Nat :=
  match t with
  | .completed => if (run_tests env).success then 0 else 1
  | .interrupted => 1
  | .exception => 1

/-- The three-line log of the spec's two-device scenario: both devices
print engine creation, keypair generation and an exchange request. -/
def scenarioLog : List LogEvent :=
  [(0, "KyberCryptoEngine created"), (1, "Kyber keypair generated"),
    (2, "KYBER_MSG_KEY_EXCHANGE_REQUEST sent")]

/-- Environment of the C8 scenario: two matching ports; flashing the first
runs past the 300 time-unit timeout, flashing the second exits with 0. -/
def envC8 : RunEnv :=
  { ports := [("/dev/ttyUSB0", "CP2102 USB to UART Bridge Controller"),
      ("/dev/ttyUSB1", "CP2102 USB to UART Bridge Controller")],
    flash := fun port =>
      if port == "/dev/ttyUSB0" then { duration := 301, exitCode := 0, raises := false }
      else { duration := 5, exitCode := 0, raises := false },
    log1 := [], log2 := [] }

/-- Environment of the C4 check: two matching serial ports whose flashes
would succeed quickly. -/
def envC4 : RunEnv :=
  { ports := [("/dev/ttyUSB0", "CP2102 USB to UART Bridge Controller"),
      ("/dev/ttyUSB1", "CP2102 USB to UART Bridge Controller")],
    flash := fun _ => { duration := 5, exitCode := 0, raises := false },
    log1 := [], log2 := [] }

/-- The timestamp-free shape of an input mapping: device names and raw line
texts in per-device order, with the timestamp components removed. -/
def stripTimes (dl : List (String × List LogEvent)) : List (String × List String) :=
  dl.map fun d => (d.1, d.2.map fun e => e.2)

theorem toNat_ofNat_valid (n : Nat) (h : n.isValidChar) : (Char.ofNat n).toNat = n := by
  rw [Char.ofNat, dif_pos h]
  simp [Char.ofNatAux, Char.toNat, UInt32.toNat]

theorem toLower_ne_K (c : Char) : Char.toLower c ≠ 'K' := by
  unfold Char.toLower
  dsimp only
  split
  · next h =>
    obtain ⟨h1, h2⟩ := h
    intro heq
    have hv : (Char.ofNat (Char.toNat c + 32)).toNat = Char.toNat c + 32 :=
      toNat_ofNat_valid _ (Or.inl (by omega))
    rw [heq] at hv
    have hk : ('K' : Char).toNat = 75 := by decide
    omega
  · next h =>
    intro heq
    subst heq
    exact h (by decide)

theorem not_mem_K_pyLower (s : String) : 'K' ∉ pyLower s := by
  rw [pyLower]
  intro h
  obtain ⟨c, _, hc⟩ := List.mem_map.mp h
  exact toLower_ne_K c hc

theorem mem_of_isPrefixOf {c : Char} :
    ∀ {p l : List Char}, p.isPrefixOf l = true → c ∈ p → c ∈ l
  | [], _, _, hc => absurd hc (List.not_mem_nil c)
  | _ :: _, [], h, _ => absurd h (by simp)
  | x :: p, y :: l, h, hc => by
    rw [List.isPrefixOf_cons₂] at h
    obtain ⟨hxy, hrec⟩ := (Bool.and_eq_true _ _).mp h
    rcases List.mem_cons.mp hc with hcx | hcp
    · exact hcx ▸ (eq_of_beq hxy ▸ List.mem_cons_self y l)
    · exact List.mem_cons_of_mem y (mem_of_isPrefixOf hrec hcp)

theorem containsSub_eq_false {p : String} {l : List Char}
    (hp : 'K' ∈ p.data) (hl : 'K' ∉ l) : containsSub p l = false := by
  cases hb : containsSub p l with
  | false => rfl
  | true =>
    exfalso
    rw [containsSub, List.any_eq_true] at hb
    obtain ⟨i, _, hpre⟩ := hb
    exact hl (List.drop_subset _ _ (mem_of_isPrefixOf hpre hp))

theorem matchDotStar_eq_false {a b : String} {l : List Char}
    (ha : 'K' ∈ a.data) (hl : 'K' ∉ l) : matchDotStar a b l = false := by
  cases hb : matchDotStar a b l with
  | false => rfl
  | true =>
    exfalso
    rw [matchDotStar, List.any_eq_true] at hb
    obtain ⟨i, _, h2⟩ := hb
    have hpre := (Bool.and_eq_true _ _).mp h2 |>.1
    exact hl (List.drop_subset _ _ (mem_of_isPrefixOf hpre ha))

theorem matchKyberInit_pyLower (s : String) : matchKyberInit (pyLower s) = false := by
  rw [matchKyberInit,
    matchDotStar_eq_false (a := "Kyber") (by decide) (not_mem_K_pyLower s),
    matchDotStar_eq_false (a := "KyberCryptoEngine") (by decide) (not_mem_K_pyLower s)]
  rfl

theorem matchKeyGeneration_pyLower (s : String) :
    matchKeyGeneration (pyLower s) = false := by
  rw [matchKeyGeneration,
    containsSub_eq_false (p := "Kyber keypair generated") (by decide) (not_mem_K_pyLower s),
    matchDotStar_eq_false (a := "generateKeyPair") (by decide) (not_mem_K_pyLower s)]
  rfl

theorem matchKeyExchangeStart_pyLower (s : String) :
    matchKeyExchangeStart (pyLower s) = false := by
  rw [matchKeyExchangeStart,
    containsSub_eq_false (p := "Initiating Kyber key exchange") (by decide)
      (not_mem_K_pyLower s),
    containsSub_eq_false (p := "KYBER_MSG_KEY_EXCHANGE_REQUEST") (by decide)
      (not_mem_K_pyLower s)]
  rfl

theorem analyzeLine_dead_fields (s : DeviceStats) (line : String) :
    (analyzeLine s line).kyber_init = s.kyber_init ∧
    (analyzeLine s line).key_generation = s.key_generation ∧
    (analyzeLine s line).key_exchange_attempts = s.key_exchange_attempts := by
  refine ⟨?_, ?_, ?_⟩ <;>
    simp [analyzeLine, matchKyberInit_pyLower, matchKeyGeneration_pyLower,
      matchKeyExchangeStart_pyLower]

theorem analyzeFrom_dead_fields (logs : List LogEvent) (s : DeviceStats) :
    (analyzeFrom s logs).kyber_init = s.kyber_init ∧
    (analyzeFrom s logs).key_generation = s.key_generation ∧
    (analyzeFrom s logs).key_exchange_attempts = s.key_exchange_attempts := by
  induction logs generalizing s with
  | nil => exact ⟨rfl, rfl, rfl⟩
  | cons e t ih =>
    have hstep : analyzeFrom s (e :: t) = analyzeFrom (analyzeLine s e.2) t := rfl
    have hd := analyzeLine_dead_fields s e.2
    have ht := ih (analyzeLine s e.2)
    exact ⟨by rw [hstep, ht.1, hd.1], by rw [hstep, ht.2.1, hd.2.1],
      by rw [hstep, ht.2.2, hd.2.2]⟩

theorem analyzeDeviceLog_dead_fields (logs : List LogEvent) :
    (analyzeDeviceLog logs).kyber_init = false ∧
    (analyzeDeviceLog logs).key_generation = false ∧
    (analyzeDeviceLog logs).key_exchange_attempts = 0 :=
  analyzeFrom_dead_fields logs initStats

theorem both_init_always_false (log1 log2 : List LogEvent) :
    (success_criteria (meshAnalysis log1 log2)).both_init = false := by
  simp [success_criteria, meshAnalysis, analyze_log_output,
    (analyzeDeviceLog_dead_fields log1).1, (analyzeDeviceLog_dead_fields log2).1]

theorem mesh_always_false (log1 log2 : List LogEvent) :
    test_mesh_communication log1 log2 = false := by
  rw [test_mesh_communication, overall_success, both_init_always_false]
  rfl

/-- C2: for every input mapping of device logs and every device in it,
`analyze_log_output` reports `kyber_init = false`, `key_generation = false`
and `key_exchange_attempts = 0`, because each line is lowercased before
matching while those three patterns contain uppercase literal characters
and `re.search` runs without case-insensitive flags; consequently the
verdict's `both_init` criterion, and with it the overall success of
`test_mesh_communication`, is false for every possible pair of device
logs. -/
theorem C2_uppercase_patterns_never_match
    (device_logs : List (String × List LogEvent)) :
    (∀ p ∈ (analyze_log_output device_logs).kyber_init, p.2 = false) ∧
    (∀ p ∈ (analyze_log_output device_logs).key_generation, p.2 = false) ∧
    (∀ p ∈ (analyze_log_output device_logs).key_exchange_attempts, p.2 = 0) ∧
    (∀ log1 log2 : List LogEvent,
      (success_criteria (meshAnalysis log1 log2)).both_init = false ∧
      test_mesh_communication log1 log2 = false) := by
  refine ⟨?_, ?_, ?_, fun log1 log2 =>
    ⟨both_init_always_false log1 log2, mesh_always_false log1 log2⟩⟩ <;>
  · intro p hp
    rw [analyze_log_output] at hp
    obtain ⟨d, _, rfl⟩ := List.mem_map.mp hp
    simp [analyzeDeviceLog_dead_fields d.2]

theorem C2_uppercase_patterns_never_match_witness :
    ((("T-Deck-1", false) : String × Bool).2 = false ∧
      test_mesh_communication [(0, "KyberCryptoEngine created")] [] = false) :=
  ⟨(C2_uppercase_patterns_never_match
      [("T-Deck-1", [(0, "KyberCryptoEngine created")])]).1
      ("T-Deck-1", false) (by decide),
    ((C2_uppercase_patterns_never_match []).2.2.2
      [(0, "KyberCryptoEngine created")] []).2⟩

/-- C1: the spec expects the scenario where both devices log
`KyberCryptoEngine created`, `Kyber keypair generated` and
`KYBER_MSG_KEY_EXCHANGE_REQUEST sent` to yield init and keygen detected,
two exchange attempts in total, zero errors and an overall-true verdict.
The code disagrees: lowercasing makes the three uppercase patterns
unmatchable, so init and keygen stay false, the attempt count stays 0 and
the verdict is false (the error count 0 is the only agreeing part). -/
theorem C1_scenario_fails_on_code :
    (analyzeDeviceLog scenarioLog).kyber_init = false ∧
    (analyzeDeviceLog scenarioLog).key_generation = false ∧
    (analyzeDeviceLog scenarioLog).key_exchange_attempts = 0 ∧
    (analyzeDeviceLog scenarioLog).errors = 0 ∧
    test_mesh_communication scenarioLog scenarioLog = false := by
  have h := analyzeDeviceLog_dead_fields scenarioLog
  exact ⟨h.1, h.2.1, h.2.2, by decide, mesh_always_false scenarioLog scenarioLog⟩

/-- C3: for every `AnalysisResult`, the verdict's overall boolean is true
iff all four fixed criteria hold — init detected for every device, keygen
detected for every device, the exchange-attempt counts summing to a
strictly positive total, and every device's error count strictly below 5 —
and any verdict with a single false criterion has a false overall,
regardless of the other three. -/
theorem C3_overall_iff_all_criteria (analysis : AnalysisResult) :
    (overall_success (success_criteria analysis) = true ↔
      ((∀ p ∈ analysis.kyber_init, p.2 = true) ∧
       (∀ p ∈ analysis.key_generation, p.2 = true) ∧
       0 < (analysis.key_exchange_attempts.map fun d => d.2).sum ∧
       (∀ p ∈ analysis.errors, p.2 < 5))) ∧
    (∀ v : Verdict,
      v.both_init = false ∨ v.both_keygen = false ∨
        v.key_exchanges = false ∨ v.low_errors = false →
      overall_success v = false) := by
  constructor
  · simp only [overall_success, success_criteria, Bool.and_eq_true, List.all_eq_true,
      decide_eq_true_eq]
    tauto
  · intro v hv
    rw [overall_success]
    rcases hv with h | h | h | h <;> simp [h]

theorem C3_overall_iff_all_criteria_witness :
    overall_success ⟨false, true, true, true⟩ = false :=
  (C3_overall_iff_all_criteria ⟨[], [], [], [], [], [], []⟩).2
    ⟨false, true, true, true⟩ (Or.inl rfl)

theorem analyzeFrom_no_match (logs : List LogEvent) (s : DeviceStats) :
    ((∀ e ∈ logs, matchKyberInit (pyLower e.2) = false) →
      (analyzeFrom s logs).kyber_init = s.kyber_init) ∧
    ((∀ e ∈ logs, matchKeyGeneration (pyLower e.2) = false) →
      (analyzeFrom s logs).key_generation = s.key_generation) ∧
    ((∀ e ∈ logs, matchKeyExchangeStart (pyLower e.2) = false) →
      (analyzeFrom s logs).key_exchange_attempts = s.key_exchange_attempts) ∧
    ((∀ e ∈ logs, matchSessionEstablished (pyLower e.2) = false) →
      (analyzeFrom s logs).sessions_established = s.sessions_established) ∧
    ((∀ e ∈ logs, matchQuantumSecurity (pyLower e.2) = false) →
      (analyzeFrom s logs).quantum_security_active = s.quantum_security_active) ∧
    ((∀ e ∈ logs, matchMeshPacket (pyLower e.2) = false) →
      (analyzeFrom s logs).mesh_packets = s.mesh_packets) ∧
    ((∀ e ∈ logs, matchError (pyLower e.2) = false) →
      (analyzeFrom s logs).errors = s.errors) := by
  induction logs generalizing s with
  | nil => exact ⟨fun _ => rfl, fun _ => rfl, fun _ => rfl, fun _ => rfl,
      fun _ => rfl, fun _ => rfl, fun _ => rfl⟩
  | cons e t ih =>
    have hstep : analyzeFrom s (e :: t) = analyzeFrom (analyzeLine s e.2) t := rfl
    have it := ih (analyzeLine s e.2)
    refine ⟨fun h => ?_, fun h => ?_, fun h => ?_, fun h => ?_, fun h => ?_,
      fun h => ?_, fun h => ?_⟩ <;>
    · have he := h e (List.mem_cons_self e t)
      have ht := fun x hx => h x (List.mem_cons_of_mem e hx)
      rw [hstep]
      first
      | rw [it.1 ht]
      | rw [it.2.1 ht]
      | rw [it.2.2.1 ht]
      | rw [it.2.2.2.1 ht]
      | rw [it.2.2.2.2.1 ht]
      | rw [it.2.2.2.2.2.1 ht]
      | rw [it.2.2.2.2.2.2 ht]
      simp [analyzeLine, he]

/-- C5: for every input mapping of device logs and every device present in
it — including one with an empty log — the `AnalysisResult` returned by
`analyze_log_output` contains an entry for that device under every one of
the seven categories, and each category keeps its initial default (false
for booleans, 0 for counters) whenever no line of the device's log matches
that category's pattern, hence in particular for an empty log. -/
theorem C5_categories_always_present
    (device_logs : List (String × List LogEvent)) (name : String)
    (logs : List LogEvent) (h : (name, logs) ∈ device_logs) :
    ((name, (analyzeDeviceLog logs).kyber_init) ∈
        (analyze_log_output device_logs).kyber_init ∧
      (name, (analyzeDeviceLog logs).key_generation) ∈
        (analyze_log_output device_logs).key_generation ∧
      (name, (analyzeDeviceLog logs).key_exchange_attempts) ∈
        (analyze_log_output device_logs).key_exchange_attempts ∧
      (name, (analyzeDeviceLog logs).sessions_established) ∈
        (analyze_log_output device_logs).sessions_established ∧
      (name, (analyzeDeviceLog logs).quantum_security_active) ∈
        (analyze_log_output device_logs).quantum_security_active ∧
      (name, (analyzeDeviceLog logs).mesh_packets) ∈
        (analyze_log_output device_logs).mesh_packets ∧
      (name, (analyzeDeviceLog logs).errors) ∈
        (analyze_log_output device_logs).errors) ∧
    ((∀ e ∈ logs, matchKyberInit (pyLower e.2) = false) →
      (analyzeDeviceLog logs).kyber_init = false) ∧
    ((∀ e ∈ logs, matchKeyGeneration (pyLower e.2) = false) →
      (analyzeDeviceLog logs).key_generation = false) ∧
    ((∀ e ∈ logs, matchKeyExchangeStart (pyLower e.2) = false) →
      (analyzeDeviceLog logs).key_exchange_attempts = 0) ∧
    ((∀ e ∈ logs, matchSessionEstablished (pyLower e.2) = false) →
      (analyzeDeviceLog logs).sessions_established = 0) ∧
    ((∀ e ∈ logs, matchQuantumSecurity (pyLower e.2) = false) →
      (analyzeDeviceLog logs).quantum_security_active = false) ∧
    ((∀ e ∈ logs, matchMeshPacket (pyLower e.2) = false) →
      (analyzeDeviceLog logs).mesh_packets = 0) ∧
    ((∀ e ∈ logs, matchError (pyLower e.2) = false) →
      (analyzeDeviceLog logs).errors = 0) := by
  have hm := analyzeFrom_no_match logs initStats
  refine ⟨⟨?_, ?_, ?_, ?_, ?_, ?_, ?_⟩,
    hm.1, hm.2.1, hm.2.2.1, hm.2.2.2.1, hm.2.2.2.2.1, hm.2.2.2.2.2.1,
    hm.2.2.2.2.2.2⟩ <;>
  · rw [analyze_log_output]
    exact List.mem_map.mpr ⟨(name, logs), h, rfl⟩

theorem C5_categories_always_present_witness :
    (("T-Deck-1", false) ∈
        (analyze_log_output [("T-Deck-1", [])]).kyber_init ∧
      ("T-Deck-1", (0 : Nat)) ∈
        (analyze_log_output [("T-Deck-1", [])]).errors) := by
  have hc := C5_categories_always_present [("T-Deck-1", [])] "T-Deck-1" []
    (by decide)
  exact ⟨hc.1.1, hc.1.2.2.2.2.2.2⟩

theorem analyzeFrom_true_stays (logs : List LogEvent) (s : DeviceStats) :
    (s.kyber_init = true → (analyzeFrom s logs).kyber_init = true) ∧
    (s.key_generation = true → (analyzeFrom s logs).key_generation = true) ∧
    (s.quantum_security_active = true →
      (analyzeFrom s logs).quantum_security_active = true) := by
  induction logs generalizing s with
  | nil => exact ⟨id, id, id⟩
  | cons e t ih =>
    have hstep : analyzeFrom s (e :: t) = analyzeFrom (analyzeLine s e.2) t := rfl
    have it := ih (analyzeLine s e.2)
    refine ⟨fun h => ?_, fun h => ?_, fun h => ?_⟩ <;> rw [hstep]
    · exact it.1 (by simp [analyzeLine, h])
    · exact it.2.1 (by simp [analyzeLine, h])
    · exact it.2.2 (by simp [analyzeLine, h])

theorem analyzeDeviceLog_append (pre suf : List LogEvent) :
    analyzeDeviceLog (pre ++ suf) = analyzeFrom (analyzeDeviceLog pre) suf := by
  rw [analyzeDeviceLog, analyzeDeviceLog, analyzeFrom, analyzeFrom, analyzeFrom,
    List.foldl_append]

/-- C6: the boolean analysis categories `kyber_init`, `key_generation` and
`quantum_security_active` are monotonic over a device's log: for every log
prefix, the value computed on the prefix is `≤` (in `Bool`, where
`false ≤ true`) the value computed on any extension, so once a boolean
category becomes true, further lines can never reset it to false. -/
theorem C6_boolean_categories_monotonic (pre suf : List LogEvent) :
    (analyzeDeviceLog pre).kyber_init ≤ (analyzeDeviceLog (pre ++ suf)).kyber_init ∧
    (analyzeDeviceLog pre).key_generation ≤
      (analyzeDeviceLog (pre ++ suf)).key_generation ∧
    (analyzeDeviceLog pre).quantum_security_active ≤
      (analyzeDeviceLog (pre ++ suf)).quantum_security_active := by
  rw [analyzeDeviceLog_append]
  have hs := analyzeFrom_true_stays suf (analyzeDeviceLog pre)
  refine ⟨?_, ?_, ?_⟩
  · cases hb : (analyzeDeviceLog pre).kyber_init with
    | false => exact Bool.false_le _
    | true => rw [hs.1 hb]
  · cases hb : (analyzeDeviceLog pre).key_generation with
    | false => exact Bool.false_le _
    | true => rw [hs.2.1 hb]
  · cases hb : (analyzeDeviceLog pre).quantum_security_active with
    | false => exact Bool.false_le _
    | true => rw [hs.2.2 hb]

/-- C7: the claim promises that a log line matching both the
key-exchange-attempt pattern and the error pattern bumps both counters by
exactly one.  The line `Initiating Kyber key exchange error` matches both
patterns as written, yet the code — which lowercases the line before the
case-sensitive search — increments only the error counter: the exchange
pattern cannot survive the lowercasing, so no line can ever increment the
exchange counter, and the claimed premise is unsatisfiable for the code. -/
theorem C7_joint_increment_fails_on_code :
    matchKeyExchangeStart "Initiating Kyber key exchange error".data = true ∧
    matchError "Initiating Kyber key exchange error".data = true ∧
    (analyzeLine initStats "Initiating Kyber key exchange error").key_exchange_attempts
      = 0 ∧
    (analyzeLine initStats "Initiating Kyber key exchange error").errors = 1 ∧
    (∀ line : String, matchKeyExchangeStart (pyLower line) = false) := by
  refine ⟨by decide, by decide, ?_, by decide, matchKeyExchangeStart_pyLower⟩
  have h := (analyzeLine_dead_fields initStats "Initiating Kyber key exchange error").2.2
  rw [h]
  rfl

theorem run_tests_continues (env : RunEnv)
    (h2 : ¬ (find_t_deck_devices env.ports).length < 2) :
    run_tests env =
      { flashedPorts := find_t_deck_devices env.ports,
        flash_results := (find_t_deck_devices env.ports).enum.map fun ip =>
          (deviceName ip.1, flash_firmware (env.flash ip.2)),
        monitoredPorts := find_t_deck_devices env.ports,
        monitorDuration := some 90,
        reportWritten := true,
        success := (((find_t_deck_devices env.ports).enum.map fun ip =>
            (deviceName ip.1, flash_firmware (env.flash ip.2))).all fun r => r.2) &&
          test_mesh_communication env.log1 env.log2 } := by
  rw [run_tests]
  simp [h2]

/-- C8: `flash_firmware` returns true iff the external process exits with
status 0 within the 300 time-unit timeout; a timeout, a non-zero exit or a
raised exception is a recorded false, the run still flashes the remaining
device and still monitors both ports for 90 time-units, the overall result
is the conjunction of all flash entries with the mesh verdict (so any false
flash entry forces overall failure regardless of the mesh verdict), and in
the scenario where flashing device A times out while device B succeeds the
recorded results are exactly A false, B true, with overall failure. -/
theorem C8_flash_failure_recorded_run_continues (p : ProcOutcome) (env : RunEnv)
    (h2 : (find_t_deck_devices env.ports).length = 2) :
    (flash_firmware p = true ↔
      (p.raises = false ∧ p.duration ≤ 300 ∧ p.exitCode = 0)) ∧
    ((run_tests env).flash_results.length = 2 ∧
      (run_tests env).monitoredPorts = find_t_deck_devices env.ports ∧
      (run_tests env).monitorDuration = some 90 ∧
      (run_tests env).reportWritten = true ∧
      (run_tests env).success =
        (((run_tests env).flash_results.all fun r => r.2) &&
          test_mesh_communication env.log1 env.log2)) ∧
    (∀ r ∈ (run_tests env).flash_results, r.2 = false →
      (run_tests env).success = false) ∧
    ((run_tests envC8).flash_results = [("T-Deck-1", false), ("T-Deck-2", true)] ∧
      (run_tests envC8).monitoredPorts = ["/dev/ttyUSB0", "/dev/ttyUSB1"] ∧
      (run_tests envC8).success = false) := by
  have hru := run_tests_continues env (by omega)
  refine ⟨?_, ⟨?_, ?_, ?_, ?_, ?_⟩, ?_, by decide, by decide, by decide⟩
  · rw [flash_firmware]
    rcases p with ⟨d, c, r⟩
    cases r <;> by_cases hd : 300 < d <;> simp [hd, beq_iff_eq] <;> omega
  · rw [hru]
    simp [List.enum_length, h2]
  · rw [hru]
  · rw [hru]
  · rw [hru]
  · rw [hru]
  · intro r hr hrf
    rw [hru] at hr ⊢
    simp only at hr ⊢
    have hall : (((find_t_deck_devices env.ports).enum.map fun ip =>
        (deviceName ip.1, flash_firmware (env.flash ip.2))).all fun q => q.2) = false := by
      cases hb : ((find_t_deck_devices env.ports).enum.map fun ip =>
          (deviceName ip.1, flash_firmware (env.flash ip.2))).all fun q => q.2 with
      | false => rfl
      | true =>
        exfalso
        have := List.all_eq_true.mp hb r hr
        rw [hrf] at this
        exact Bool.false_ne_true this
    rw [hall, Bool.false_and]

theorem C8_flash_failure_recorded_run_continues_witness :
    (flash_firmware { duration := 5, exitCode := 0, raises := false } = true ∧
      (run_tests envC8).success = false) :=
  ⟨(C8_flash_failure_recorded_run_continues
        { duration := 5, exitCode := 0, raises := false } envC8 (by decide)).1.mpr
      ⟨rfl, by decide, rfl⟩,
    (C8_flash_failure_recorded_run_continues
        { duration := 5, exitCode := 0, raises := false } envC8 (by decide)).2.2.2.2.2⟩

/-- C9: for every enumeration of serial endpoints, discovery returns at
most 2 devices; when at least 2 endpoints match the keyword set it returns
exactly the first two matching endpoints in enumeration order; and when
fewer than 2 match, discovery returns no devices and the run terminates
before flashing, monitoring or report writing, with overall failure. -/
theorem C9_locator_caps_and_terminal_failure (ports : List (String × String)) :
    (find_t_deck_devices ports).length ≤ 2 ∧
    (2 ≤ (matchingPorts ports).length →
      find_t_deck_devices ports = (matchingPorts ports).take 2) ∧
    ((matchingPorts ports).length < 2 →
      (find_t_deck_devices ports = [] ∧
        ∀ (flash : String → ProcOutcome) (log1 log2 : List LogEvent),
          run_tests ⟨ports, flash, log1, log2⟩ =
            { flashedPorts := [], flash_results := [], monitoredPorts := [],
              monitorDuration := none, reportWritten := false,
              success := false })) := by
  by_cases hlt : (matchingPorts ports).length < 2
  · have hfind : find_t_deck_devices ports = [] := by
      rw [find_t_deck_devices]
      simp [hlt]
    refine ⟨by rw [hfind]; decide, fun h => absurd h (by omega), fun _ =>
      ⟨hfind, fun flash log1 log2 => ?_⟩⟩
    rw [run_tests]
    have : find_t_deck_devices (RunEnv.mk ports flash log1 log2).ports = [] := hfind
    simp [this]
  · have hfind : find_t_deck_devices ports = (matchingPorts ports).take 2 := by
      rw [find_t_deck_devices]
      simp [hlt]
    refine ⟨?_, fun _ => hfind, fun h => absurd h hlt⟩
    rw [hfind]
    have := List.length_take 2 (matchingPorts ports)
    omega

theorem C9_locator_caps_and_terminal_failure_witness :
    (find_t_deck_devices [("/dev/ttyUSB0", "CP2102 USB to UART Bridge")] = [] ∧
      (run_tests
          ⟨[("/dev/ttyUSB0", "CP2102 USB to UART Bridge")],
            fun _ => { duration := 5, exitCode := 0, raises := false },
            [], []⟩).reportWritten = false) := by
  have h := (C9_locator_caps_and_terminal_failure
      [("/dev/ttyUSB0", "CP2102 USB to UART Bridge")]).2.2 (by decide)
  exact ⟨h.1, by rw [h.2 (fun _ => { duration := 5, exitCode := 0, raises := false }) [] []]⟩

/-- C4: the claim says `--skip-flash` bypasses the flashing stage and
`--test-duration N` makes monitoring run for `N` instead of 90.  The code
parses both flags but never reads them again: the behaviour of `main` is
identical for every flag assignment, and even with `skip_flash` set and a
duration of 30 the run still flashes both discovered ports and still
monitors for the literal 90.  Only the exit-code part of the claim holds:
0 on overall success, 1 otherwise, and 1 on interruption or exception. -/
theorem C4_flags_parsed_but_never_used (args : Args) (env : RunEnv)
    (t : Termination) :
    main_exit_code args env t = main_exit_code ⟨args.verbose, false, 90⟩ env t ∧
    (run_tests envC4).flashedPorts = ["/dev/ttyUSB0", "/dev/ttyUSB1"] ∧
    (run_tests envC4).monitorDuration = some 90 ∧
    main_exit_code ⟨false, true, 30⟩ envC4 .completed =
      (if (run_tests envC4).success then 0 else 1) ∧
    main_exit_code args env .interrupted = 1 ∧
    main_exit_code args env .exception = 1 :=
  ⟨rfl, by decide, by decide, rfl, rfl, rfl⟩

theorem analyzeFrom_lines_only (logs1 logs2 : List LogEvent) (s : DeviceStats)
    (h : (logs1.map fun e => e.2) = logs2.map fun e => e.2) :
    analyzeFrom s logs1 = analyzeFrom s logs2 := by
  induction logs1 generalizing logs2 s with
  | nil =>
    cases logs2 with
    | nil => rfl
    | cons b t2 => exact absurd h (by simp)
  | cons a t ih =>
    cases logs2 with
    | nil => exact absurd h (by simp)
    | cons b t2 =>
      simp only [List.map_cons, List.cons.injEq] at h
      have hstep1 : analyzeFrom s (a :: t) = analyzeFrom (analyzeLine s a.2) t := rfl
      have hstep2 : analyzeFrom s (b :: t2) = analyzeFrom (analyzeLine s b.2) t2 := rfl
      rw [hstep1, hstep2, h.1]
      exact ih t2 (analyzeLine s b.2) h.2

theorem stats_map_eq_of_stripTimes_eq (dl1 dl2 : List (String × List LogEvent))
    (h : stripTimes dl1 = stripTimes dl2) :
    (dl1.map fun d => (d.1, analyzeDeviceLog d.2)) =
      dl2.map fun d => (d.1, analyzeDeviceLog d.2) := by
  induction dl1 generalizing dl2 with
  | nil =>
    cases dl2 with
    | nil => rfl
    | cons b t2 => exact absurd h (by simp [stripTimes])
  | cons a t ih =>
    cases dl2 with
    | nil => exact absurd h (by simp [stripTimes])
    | cons b t2 =>
      simp only [stripTimes, List.map_cons, List.cons.injEq, Prod.mk.injEq] at h
      obtain ⟨⟨hn, hl⟩, ht⟩ := h
      simp only [List.map_cons, List.cons.injEq, Prod.mk.injEq]
      exact ⟨⟨hn, by rw [analyzeDeviceLog, analyzeDeviceLog]
                     exact analyzeFrom_lines_only a.2 b.2 initStats hl⟩,
        ih t2 ht⟩

theorem field_map_eq_of_stats_map_eq {α : Type} (dl1 dl2 : List (String × List LogEvent))
    (hm : (dl1.map fun d => (d.1, analyzeDeviceLog d.2)) =
      dl2.map fun d => (d.1, analyzeDeviceLog d.2)) (f : DeviceStats → α) :
    (dl1.map fun d => (d.1, f (analyzeDeviceLog d.2))) =
      dl2.map fun d => (d.1, f (analyzeDeviceLog d.2)) := by
  have h2 := congrArg (List.map fun q : String × DeviceStats => (q.1, f q.2)) hm
  simpa [List.map_map, Function.comp] using h2

/-- C10: `analyze_log_output` does not depend on timestamps — any two input
mappings with the same devices carrying the same line texts in the same
per-device order, but arbitrary timestamp components, produce equal
analysis results. -/
theorem C10_analysis_timestamp_independent (dl1 dl2 : List (String × List LogEvent))
    (h : stripTimes dl1 = stripTimes dl2) :
    analyze_log_output dl1 = analyze_log_output dl2 := by
  have hm := stats_map_eq_of_stripTimes_eq dl1 dl2 h
  rw [analyze_log_output, analyze_log_output]
  simp only [AnalysisResult.mk.injEq]
  exact ⟨field_map_eq_of_stats_map_eq dl1 dl2 hm _,
      field_map_eq_of_stats_map_eq dl1 dl2 hm _,
      field_map_eq_of_stats_map_eq dl1 dl2 hm _,
      field_map_eq_of_stats_map_eq dl1 dl2 hm _,
      field_map_eq_of_stats_map_eq dl1 dl2 hm _,
      field_map_eq_of_stats_map_eq dl1 dl2 hm _,
      field_map_eq_of_stats_map_eq dl1 dl2 hm _⟩

theorem C10_analysis_timestamp_independent_witness :
    (stripTimes [("T-Deck-1", [(5, "packet sent")])] =
        stripTimes [("T-Deck-1", [(99, "packet sent")])] ∧
      analyze_log_output [("T-Deck-1", [(5, "packet sent")])] =
        analyze_log_output [("T-Deck-1", [(99, "packet sent")])]) :=
  ⟨by decide,
    C10_analysis_timestamp_independent [("T-Deck-1", [(5, "packet sent")])]
      [("T-Deck-1", [(99, "packet sent")])] (by decide)⟩

end Kybesp32
